import Mathlib

/-
Verification of the EOF stack-bounds analyzer `validateControlFlow2`.

The repository contains two variants of this function:
  * `src/core/vm/validate_linear.go`   — embedded below in namespace `VA`;
  * `src/unnamed/part_001`             — embedded below in namespace `VB`.
Shared infrastructure (the `bounds` pair, the jump-table shape, the
big-endian immediate decoders, the per-section metadata) is embedded once
at top level.  Go machine integers are modelled by `Int` (no arithmetic in
this code can overflow 64-bit in any scenario we evaluate); the Go
`map[int]*bounds` is modelled by an association list whose insert replaces
an existing key, so its length is the number of distinct keys, exactly as
`len` on a Go map.  A Go runtime panic (out-of-range index) is modelled by
the distinguished error `VErr.panicErr`.  The walk of `VA` can re-enter
earlier offsets (its `pos = next[0]` applies to `RJUMP` too), so both walks
take explicit fuel; `VErr.fuelExhausted` marks runs that would iterate
longer than the supplied fuel (the Go loop of `VA` does not terminate in
those cases).
-/

/-- params.StackLimit (EVM stack limit). -/
def StackLimit : Int := 1024

set_option linter.unusedVariables false in
/-- jump_table.go minStack helper: the number of popped operands.
Modelled from the spec: the per-opcode descriptor table is not under src,
spec section 3 fixes min_stack as the number of consumed items. -/
def minStack (pops push : Int) : Int := pops

/-- jump_table.go maxStack helper.  Modelled from the spec: spec section 3
fixes max_stack as 1024 - (outputs - inputs), i.e. StackLimit + pops - push. -/
def maxStack (pops push : Int) : Int := StackLimit + pops - push

/-- One jump-table entry, restricted to the fields the validator consults. -/
structure operation where
  minStack : Int
  maxStack : Int
  immediate : Int
  terminal : Bool
deriving DecidableEq

/-- The jump table, indexed by opcode byte. -/
def JumpTable : Type := Nat → operation

/-- One entry of the type section (eof.go FunctionMetadata):
inputs, outputs (0x80 marks a non-returning section) and declared
maximum stack height. -/
structure FunctionMetadata where
  Input : Int
  Output : Int
  MaxStackHeight : Int
deriving DecidableEq

def STOP : Nat := 0x00
def ADD : Nat := 0x01
def CALLER : Nat := 0x33
def POP : Nat := 0x50
def JUMPDEST : Nat := 0x5B
def PUSH0 : Nat := 0x5F
def PUSH1 : Nat := 0x60
def DUP1 : Nat := 0x80
def RJUMP : Nat := 0xE0
def RJUMPI : Nat := 0xE1
def RJUMPV : Nat := 0xE2
def CALLF : Nat := 0xE3
def RETF : Nat := 0xE4
def JUMPF : Nat := 0xE5
def DUPN : Nat := 0xE6
def SWAPN : Nat := 0xE7
def EXCHANGE : Nat := 0xE8

/-- The EOF jump table restricted to the opcodes exercised here.  The EOF
rows are taken from eips.go (RJUMP/RJUMPI/RJUMPV/CALLF/RETF/JUMPF/DUPN/
SWAPN/EXCHANGE); the legacy rows (STOP, ADD, CALLER, POP, JUMPDEST, PUSH0,
PUSH1, DUP1) are modelled from the spec's descriptor table (section 3),
since the base jump table construction is not under src.  Opcodes not
listed get the `undefined` row (minStack 0, maxStack maxStack(0,0)). -/
def jtEOF : JumpTable := fun op =>
  if op = RJUMP then ⟨minStack 0 0, maxStack 0 0, 2, true⟩
  else if op = RJUMPI then ⟨minStack 1 0, maxStack 1 0, 2, false⟩
  else if op = RJUMPV then ⟨minStack 1 0, maxStack 1 0, 1, false⟩
  else if op = CALLF then ⟨minStack 0 0, maxStack 0 0, 2, false⟩
  else if op = RETF then ⟨minStack 0 0, maxStack 0 0, 0, true⟩
  else if op = JUMPF then ⟨minStack 0 0, maxStack 0 0, 2, false⟩
  else if op = DUPN then ⟨minStack 0 1, maxStack 0 1, 1, false⟩
  else if op = SWAPN then ⟨minStack 0 0, maxStack 0 0, 1, false⟩
  else if op = EXCHANGE then ⟨minStack 0 0, maxStack 0 0, 1, false⟩
  else if op = STOP then ⟨minStack 0 0, maxStack 0 0, 0, true⟩
  else if op = ADD then ⟨minStack 2 1, maxStack 2 1, 0, false⟩
  else if op = CALLER then ⟨minStack 0 1, maxStack 0 1, 0, false⟩
  else if op = POP then ⟨minStack 1 0, maxStack 1 0, 0, false⟩
  else if op = JUMPDEST then ⟨minStack 0 0, maxStack 0 0, 0, false⟩
  else if op = PUSH0 then ⟨minStack 0 1, maxStack 0 1, 0, false⟩
  else if op = PUSH1 then ⟨minStack 0 1, maxStack 0 1, 1, false⟩
  else if op = DUP1 then ⟨minStack 1 2, maxStack 1 2, 0, false⟩
  else ⟨minStack 0 0, maxStack 0 0, 0, false⟩

/-- Read the byte at integer offset `i` of a code section; `none` models a
Go index-out-of-range panic. -/
def byteAt (code : List Nat) (i : Int) : Option Nat :=
  if i < 0 then none else code.get? i.toNat

/-- Modelled from the spec: big-endian unsigned 16-bit read (the immediate
decoder of spec section 4.2; the Go helper parseUint16 is not under src).
`none` when fewer than two bytes remain. -/
def parseUint16 (code : List Nat) (i : Int) : Option Int :=
  match byteAt code i, byteAt code (i + 1) with
  | some a, some b => some ((a : Int) * 256 + (b : Int))
  | _, _ => none

/-- Modelled from the spec: big-endian signed 16-bit two's-complement read
(spec section 4.2). -/
def parseInt16 (code : List Nat) (i : Int) : Option Int :=
  match parseUint16 code i with
  | some v => some (if 32768 ≤ v then v - 65536 else v)
  | none => none

/-- Interval of possible stack heights on entry to an instruction
(type bounds, validate_linear.go lines 9-12). -/
structure bounds where
  min : Int
  max : Int
deriving DecidableEq

/-- The analyzer's `stackBounds` map, `map[int]*bounds` in Go, as an
association list with distinct keys. -/
abbrev Bmap : Type := List (Int × bounds)

/-- Go map read: the value stored at key `q`, if any. -/
def blookup : Bmap → Int → Option bounds
  | [], _ => none
  | (p, b) :: rest, q => if p = q then some b else blookup rest q

/-- Go map write: replace the value at the key if present, else append. -/
def bset : Bmap → Int → bounds → Bmap
  | [], p, b => [(p, b)]
  | (q, c) :: rest, p, b =>
    if q = p then (p, b) :: rest else (q, c) :: bset rest p b

/-- The analyzer's mutable state: the `stackBounds` map and the running
`maxStackHeight` accumulator. -/
structure VState where
  stackBounds : Bmap
  maxStackHeight : Int
deriving DecidableEq

/-- The `setBounds` closure shared by both variants: store the interval at
`pos` and fold its upper end into `maxStackHeight`. -/
def setBounds (st : VState) (pos mn maxi : Int) : VState :=
  ⟨bset st.stackBounds pos ⟨mn, maxi⟩, max st.maxStackHeight maxi⟩

instance exceptDecEq {e a : Type} [DecidableEq e] [DecidableEq a] :
    DecidableEq (Except e a) := fun x y =>
  match x, y with
  | Except.error u, Except.error v =>
    if h : u = v then isTrue (by rw [h]) else isFalse (by intro hh; injection hh; exact h (by assumption))
  | Except.ok u, Except.ok v =>
    if h : u = v then isTrue (by rw [h]) else isFalse (by intro hh; injection hh; exact h (by assumption))
  | Except.error _, Except.ok _ => isFalse (by intro hh; exact Except.noConfusion hh)
  | Except.ok _, Except.error _ => isFalse (by intro hh; exact Except.noConfusion hh)

/-- The closed error taxonomy surfaced by the embedded code.
`panicErr` models a Go runtime panic (out-of-range index);
`fuelExhausted` marks walks longer than the supplied fuel;
`callfToNonReturning` belongs to the spec-modelled `validateCode` check. -/
inductive VErr where
  | unreachableCode : VErr
  | stackUnderflow : Int → Int → VErr
  | stackOverflow : Int → Int → VErr
  | invalidNumberOfOutputs : VErr
  | invalidOutputs : VErr
  | invalidCodeTermination : VErr
  | invalidBackwardJump : VErr
  | invalidMaxStackHeight : VErr
  | callfToNonReturning : VErr
  | panicErr : VErr
  | fuelExhausted : VErr
deriving DecidableEq

/-- The inner loop of the RJUMPV successor enumeration
(`for i := 0; i < count-1; i++`): decode `k` signed offsets starting at
table index `i` and turn each into `base + offset`. -/
def rjumpvLoop (code : List Nat) (pos base : Int) : Nat → Nat → Option (List Int)
  | _, 0 => some []
  | i, k + 1 =>
    match parseInt16 code (pos + 2 + 2 * (i : Int)), rjumpvLoop code pos base (i + 1) k with
    | some arg, some rest => some ((base + arg) :: rest)
    | _, _ => none

/-- Modelled from the spec: the CALLF callee check of `validateCode`
(spec section 4.5, "Callee must be returning (outputs ≤ 0x7F); else
ErrCallfToNonReturning").  `validateCode` itself is not under src; only its
tests (src/unnamed/part_002) are. -/
def callfCalleeCheck (callee : FunctionMetadata) : Except VErr Unit :=
  if callee.Output ≤ 0x7F then Except.ok () else Except.error VErr.callfToNonReturning

namespace VA

/-- The first switch of the loop body of validateControlFlow2
(src/core/vm/validate_linear.go lines 34-88): per-opcode stack checks.
Returns the (possibly re-assigned) `currentBounds`, the state (CALLF
rewrites the bounds at `pos`) and the (possibly advanced) `pos`
(DUPN/SWAPN do `pos += 2`). -/
def checkOp (code : List Nat) (sectionIdx : Nat) (metadata : List FunctionMetadata)
    (jt : JumpTable) (st : VState) (pos : Int) (op : Nat) (cur : bounds) :
    Except VErr (bounds × VState × Int) :=
  if op = CALLF then
    match parseUint16 code (pos + 1) with
    | none => Except.error VErr.panicErr
    | some arg =>
      match metadata.get? arg.toNat with
      | none => Except.error VErr.panicErr
      | some newSection =>
        if newSection.Input > cur.min then
          Except.error (VErr.stackUnderflow cur.min newSection.Input)
        else if cur.max + newSection.MaxStackHeight - newSection.Input > StackLimit then
          Except.error (VErr.stackOverflow
            (cur.max + newSection.MaxStackHeight - newSection.Input) StackLimit)
        else
          let change := newSection.Output - newSection.Input
          Except.ok (⟨cur.min + change, cur.max + change⟩,
            setBounds st pos (cur.min + change) (cur.max + change), pos)
  else if op = RETF then
    if cur.max ≠ cur.min then Except.error VErr.invalidNumberOfOutputs
    else
      match metadata.get? sectionIdx with
      | none => Except.error VErr.panicErr
      | some secmd =>
        if secmd.Output > cur.min then Except.error VErr.invalidOutputs
        else Except.ok (cur, st, pos)
  else if op = JUMPF then
    match parseUint16 code (pos + 1) with
    | none => Except.error VErr.panicErr
    | some arg =>
      match metadata.get? arg.toNat with
      | none => Except.error VErr.panicErr
      | some newSection =>
        if cur.max + newSection.MaxStackHeight - newSection.Input > StackLimit then
          Except.error (VErr.stackOverflow
            (cur.max + newSection.MaxStackHeight - newSection.Input) StackLimit)
        else if newSection.Output = 0x80 then
          if newSection.Input ≥ cur.min then
            Except.error (VErr.stackUnderflow cur.min newSection.Input)
          else Except.ok (cur, st, pos)
        else if cur.max ≠ cur.min then Except.error VErr.invalidNumberOfOutputs
        else
          match metadata.get? sectionIdx with
          | none => Except.error VErr.panicErr
          | some secmd =>
            if cur.max ≠ secmd.Output + newSection.Input - newSection.Output then
              Except.error VErr.invalidNumberOfOutputs
            else Except.ok (cur, st, pos)
  else if op = DUPN ∨ op = SWAPN then
    match byteAt code (pos + 1) with
    | none => Except.error VErr.panicErr
    | some v =>
      if ((v : Int) + 1) ≥ cur.min then
        Except.error (VErr.stackUnderflow cur.min ((v : Int) + 1))
      else Except.ok (cur, st, pos + 2)
  else if op = EXCHANGE then
    match byteAt code (pos + 1) with
    | none => Except.error VErr.panicErr
    | some x =>
      let n : Int := (x / 16 : Nat) + 1
      let m : Int := (x % 16 : Nat) + 1
      if n + m ≥ cur.min then Except.error (VErr.stackUnderflow cur.min (n + m))
      else Except.ok (cur, st, pos)
  else
    if (jt op).minStack > cur.min then
      Except.error (VErr.stackUnderflow cur.min (jt op).minStack)
    else Except.ok (cur, st, pos)

/-- The successor enumeration (`next`, validate_linear.go lines 90-113).
Entries are "next operation minus one"; the RJUMPV arm enumerates the
fall-through past the table and then `count-1` decoded table offsets. -/
def next (code : List Nat) (jt : JumpTable) (pos : Int) (op : Nat) :
    Except VErr (List Int) :=
  if op = RJUMP then
    match parseInt16 code (pos + 1) with
    | none => Except.error VErr.panicErr
    | some arg => Except.ok [pos + 2 + arg]
  else if op = RJUMPI then
    match parseInt16 code (pos + 1) with
    | none => Except.error VErr.panicErr
    | some arg => Except.ok [pos + 2, pos + 2 + arg]
  else if op = RJUMPV then
    match byteAt code (pos + 1) with
    | none => Except.error VErr.panicErr
    | some cb =>
      let count : Int := (cb : Int) + 1
      match rjumpvLoop code pos (pos + 2 + 2 * count) 0 cb with
      | none => Except.error VErr.panicErr
      | some ts => Except.ok ((pos + 2 + 2 * count) :: ts)
  else if (jt op).immediate ≠ 0 then Except.ok [pos + (jt op).immediate]
  else Except.ok [pos]

/-- The body of the propagation loop over `next[1:]`
(validate_linear.go lines 115-137): bound-check the target, join or create
its entry, and on a backwards edge (`nextPC < pos`) require the (joined)
stored interval to equal `currentBounds` shifted by the target opcode's
delta. -/
def propOne (code : List Nat) (jt : JumpTable) (pos : Int) (cur : bounds)
    (st : VState) (instr : Int) : Except VErr VState :=
  let nextPC := instr + 1
  if nextPC > (code.length : Int) then Except.error VErr.invalidCodeTermination
  else
    match byteAt code nextPC with
    | none => Except.error VErr.panicErr
    | some nextOP =>
      let updated : bounds × VState :=
        match blookup st.stackBounds nextPC with
        | none =>
          let change := StackLimit - (jt nextOP).maxStack + (jt nextOP).minStack
          (⟨cur.min + change, cur.max + change⟩,
           setBounds st nextPC (cur.min + change) (cur.max + change))
        | some nextBounds =>
          (⟨min nextBounds.min cur.min, max nextBounds.max cur.max⟩,
           setBounds st nextPC (min nextBounds.min cur.min) (max nextBounds.max cur.max))
      if nextPC < pos then
        let change := StackLimit - (jt nextOP).maxStack + (jt nextOP).minStack
        if updated.1.max ≠ cur.max + change then Except.error VErr.invalidBackwardJump
        else if updated.1.min ≠ cur.min + change then Except.error VErr.invalidBackwardJump
        else Except.ok updated.2
      else Except.ok updated.2

/-- The propagation loop over `next[1:]`. -/
def propagate (code : List Nat) (jt : JumpTable) (pos : Int) (cur : bounds) :
    VState → List Int → Except VErr VState
  | st, [] => Except.ok st
  | st, instr :: rest =>
    match propOne code jt pos cur st instr with
    | Except.error e => Except.error e
    | Except.ok st1 => propagate code jt pos cur st1 rest

/-- One iteration of the `for pos` loop of validate_linear.go: the
stack-check switch, the successor enumeration, the propagation loop, then
`pos = next[0]` and the fall-through `setBounds(pos+1, ...)` for
non-terminal opcodes.  Returns the state and the `pos` value at the end of
the body (the loop continues at `pos + 1`). -/
def stepOnce (code : List Nat) (sectionIdx : Nat) (metadata : List FunctionMetadata)
    (jt : JumpTable) (st : VState) (pos : Int) : Except VErr (VState × Int) :=
  match byteAt code pos with
  | none => Except.error VErr.panicErr
  | some op =>
    match blookup st.stackBounds pos with
    | none => Except.error VErr.unreachableCode
    | some currentBounds =>
      match checkOp code sectionIdx metadata jt st pos op currentBounds with
      | Except.error e => Except.error e
      | Except.ok (cur, st1, pos1) =>
        match next code jt pos1 op with
        | Except.error e => Except.error e
        | Except.ok nxt =>
          match propagate code jt pos1 cur st1 nxt.tail with
          | Except.error e => Except.error e
          | Except.ok st2 =>
            let pos2 := nxt.headD pos1
            let st3 :=
              if ¬ (jt op).terminal ∧ op ≠ RJUMP then
                let change := StackLimit - (jt op).maxStack + (jt op).minStack
                setBounds st2 (pos2 + 1) (cur.min + change) (cur.max + change)
              else st2
            Except.ok (st3, pos2)

/-- The `for pos := 0; pos < len(code); pos++` loop with explicit fuel. -/
def walk (code : List Nat) (sectionIdx : Nat) (metadata : List FunctionMetadata)
    (jt : JumpTable) : Nat → VState → Int → Except VErr VState
  | 0, st, pos =>
    if pos < (code.length : Int) then Except.error VErr.fuelExhausted else Except.ok st
  | fuel + 1, st, pos =>
    if pos < (code.length : Int) then
      match stepOnce code sectionIdx metadata jt st pos with
      | Except.error e => Except.error e
      | Except.ok (st1, pos1) => walk code sectionIdx metadata jt fuel st1 (pos1 + 1)
    else Except.ok st

/-- Initialization (`stackBounds[0] = {inputs, inputs}`,
`maxStackHeight = inputs`) followed by the walk. -/
def validateRun (code : List Nat) (sectionIdx : Nat) (metadata : List FunctionMetadata)
    (jt : JumpTable) : Except VErr VState :=
  match metadata.get? sectionIdx with
  | none => Except.error VErr.panicErr
  | some secmd =>
    walk code sectionIdx metadata jt ((code.length + 1) * (code.length + 1))
      ⟨bset [] 0 ⟨secmd.Input, secmd.Input⟩, secmd.Input⟩ 0

/-- validateControlFlow2 of src/core/vm/validate_linear.go: the walk, then
the final StackLimit and MaxStackHeight checks, returning the size of the
bounds map on success. -/
def validateControlFlow2 (code : List Nat) (sectionIdx : Nat)
    (metadata : List FunctionMetadata) (jt : JumpTable) : Except VErr Int :=
  match metadata.get? sectionIdx with
  | none => Except.error VErr.panicErr
  | some secmd =>
    match validateRun code sectionIdx metadata jt with
    | Except.error e => Except.error e
    | Except.ok st =>
      if st.maxStackHeight ≥ StackLimit then
        Except.error (VErr.stackOverflow st.maxStackHeight StackLimit)
      else if st.maxStackHeight ≠ secmd.MaxStackHeight then
        Except.error VErr.invalidMaxStackHeight
      else Except.ok (st.stackBounds.length : Int)

end VA

namespace VB

/-- The stack-check switch of the loop body of validateControlFlow2
(src/unnamed/part_001 lines 36-90).  Identical to the VA switch except
that the JUMPF-to-non-returning, DUPN/SWAPN and EXCHANGE underflow
comparisons are strict (`want > have`). -/
def checkOp (code : List Nat) (sectionIdx : Nat) (metadata : List FunctionMetadata)
    (jt : JumpTable) (st : VState) (pos : Int) (op : Nat) (cur : bounds) :
    Except VErr (bounds × VState × Int) :=
  if op = CALLF then
    match parseUint16 code (pos + 1) with
    | none => Except.error VErr.panicErr
    | some arg =>
      match metadata.get? arg.toNat with
      | none => Except.error VErr.panicErr
      | some newSection =>
        if newSection.Input > cur.min then
          Except.error (VErr.stackUnderflow cur.min newSection.Input)
        else if cur.max + newSection.MaxStackHeight - newSection.Input > StackLimit then
          Except.error (VErr.stackOverflow
            (cur.max + newSection.MaxStackHeight - newSection.Input) StackLimit)
        else
          let change := newSection.Output - newSection.Input
          Except.ok (⟨cur.min + change, cur.max + change⟩,
            setBounds st pos (cur.min + change) (cur.max + change), pos)
  else if op = RETF then
    if cur.max ≠ cur.min then Except.error VErr.invalidNumberOfOutputs
    else
      match metadata.get? sectionIdx with
      | none => Except.error VErr.panicErr
      | some secmd =>
        if secmd.Output > cur.min then Except.error VErr.invalidOutputs
        else Except.ok (cur, st, pos)
  else if op = JUMPF then
    match parseUint16 code (pos + 1) with
    | none => Except.error VErr.panicErr
    | some arg =>
      match metadata.get? arg.toNat with
      | none => Except.error VErr.panicErr
      | some newSection =>
        if cur.max + newSection.MaxStackHeight - newSection.Input > StackLimit then
          Except.error (VErr.stackOverflow
            (cur.max + newSection.MaxStackHeight - newSection.Input) StackLimit)
        else if newSection.Output = 0x80 then
          if newSection.Input > cur.min then
            Except.error (VErr.stackUnderflow cur.min newSection.Input)
          else Except.ok (cur, st, pos)
        else if cur.max ≠ cur.min then Except.error VErr.invalidNumberOfOutputs
        else
          match metadata.get? sectionIdx with
          | none => Except.error VErr.panicErr
          | some secmd =>
            if cur.max ≠ secmd.Output + newSection.Input - newSection.Output then
              Except.error VErr.invalidNumberOfOutputs
            else Except.ok (cur, st, pos)
  else if op = DUPN ∨ op = SWAPN then
    match byteAt code (pos + 1) with
    | none => Except.error VErr.panicErr
    | some v =>
      if ((v : Int) + 1) > cur.min then
        Except.error (VErr.stackUnderflow cur.min ((v : Int) + 1))
      else Except.ok (cur, st, pos + 2)
  else if op = EXCHANGE then
    match byteAt code (pos + 1) with
    | none => Except.error VErr.panicErr
    | some x =>
      let n : Int := (x / 16 : Nat) + 1
      let m : Int := (x % 16 : Nat) + 1
      if n + m > cur.min then Except.error (VErr.stackUnderflow cur.min (n + m))
      else Except.ok (cur, st, pos)
  else
    if (jt op).minStack > cur.min then
      Except.error (VErr.stackUnderflow cur.min (jt op).minStack)
    else Except.ok (cur, st, pos)

/-- The exit interval `currentStackMin/Max` of part_001 lines 92-101:
for non-terminal opcodes other than CALLF, shift the entry interval by
`StackLimit - maxStack(op)` (the opcode's net stack delta). -/
def currentStack (jt : JumpTable) (op : Nat) (cur : bounds) : bounds :=
  if ¬ (jt op).terminal ∧ op ≠ CALLF then
    ⟨cur.min + (StackLimit - (jt op).maxStack), cur.max + (StackLimit - (jt op).maxStack)⟩
  else cur

/-- The successor enumeration of part_001 lines 103-126.  Identical to the
VA enumeration except that the RJUMPV fall-through and targets are based
at `pos + 1 + 2*count`. -/
def next (code : List Nat) (jt : JumpTable) (pos : Int) (op : Nat) :
    Except VErr (List Int) :=
  if op = RJUMP then
    match parseInt16 code (pos + 1) with
    | none => Except.error VErr.panicErr
    | some arg => Except.ok [pos + 2 + arg]
  else if op = RJUMPI then
    match parseInt16 code (pos + 1) with
    | none => Except.error VErr.panicErr
    | some arg => Except.ok [pos + 2, pos + 2 + arg]
  else if op = RJUMPV then
    match byteAt code (pos + 1) with
    | none => Except.error VErr.panicErr
    | some cb =>
      let count : Int := (cb : Int) + 1
      match rjumpvLoop code pos (pos + 1 + 2 * count) 0 cb with
      | none => Except.error VErr.panicErr
      | some ts => Except.ok ((pos + 1 + 2 * count) :: ts)
  else if (jt op).immediate ≠ 0 then Except.ok [pos + (jt op).immediate]
  else Except.ok [pos]

/-- The body of the propagation loop over `next[1:]` (part_001 lines
128-156).  Forward or same-offset targets (`nextPC ≥ pos`) are created or
joined from the exit interval `cs`; backwards targets must already have an
entry (else ErrInvalidBackwardJump) which, shifted by the target opcode's
`StackLimit - maxStack + minStack`, must equal `currentBounds` exactly —
the stored entry is not modified. -/
def propOne (code : List Nat) (jt : JumpTable) (pos : Int) (cur cs : bounds)
    (st : VState) (instr : Int) : Except VErr VState :=
  let nextPC := instr + 1
  if nextPC ≥ (code.length : Int) then Except.error VErr.invalidCodeTermination
  else
    match byteAt code nextPC with
    | none => Except.error VErr.panicErr
    | some nextOP =>
      if nextPC ≥ pos then
        match blookup st.stackBounds nextPC with
        | none => Except.ok (setBounds st nextPC cs.min cs.max)
        | some nextBounds =>
          Except.ok (setBounds st nextPC (min nextBounds.min cs.min) (max nextBounds.max cs.max))
      else
        match blookup st.stackBounds nextPC with
        | none => Except.error VErr.invalidBackwardJump
        | some nextBounds =>
          let change := StackLimit - (jt nextOP).maxStack + (jt nextOP).minStack
          if nextBounds.max + change ≠ cur.max then Except.error VErr.invalidBackwardJump
          else if nextBounds.min + change ≠ cur.min then Except.error VErr.invalidBackwardJump
          else Except.ok st

/-- The propagation loop over `next[1:]`. -/
def propagate (code : List Nat) (jt : JumpTable) (pos : Int) (cur cs : bounds) :
    VState → List Int → Except VErr VState
  | st, [] => Except.ok st
  | st, instr :: rest =>
    match propOne code jt pos cur cs st instr with
    | Except.error e => Except.error e
    | Except.ok st1 => propagate code jt pos cur cs st1 rest

/-- One iteration of the `for pos` loop of part_001: the stack-check
switch, the exit interval, the successor enumeration, the propagation
loop, then `pos = next[0]` (except for RJUMP) and the fall-through
`setBounds(pos+1, currentStack)` for non-terminal opcodes. -/
def stepOnce (code : List Nat) (sectionIdx : Nat) (metadata : List FunctionMetadata)
    (jt : JumpTable) (st : VState) (pos : Int) : Except VErr (VState × Int) :=
  match byteAt code pos with
  | none => Except.error VErr.panicErr
  | some op =>
    match blookup st.stackBounds pos with
    | none => Except.error VErr.unreachableCode
    | some currentBounds =>
      match checkOp code sectionIdx metadata jt st pos op currentBounds with
      | Except.error e => Except.error e
      | Except.ok (cur, st1, pos1) =>
        let cs := currentStack jt op cur
        match next code jt pos1 op with
        | Except.error e => Except.error e
        | Except.ok nxt =>
          match propagate code jt pos1 cur cs st1 nxt.tail with
          | Except.error e => Except.error e
          | Except.ok st2 =>
            let pos2 := if op ≠ RJUMP then nxt.headD pos1 else pos1
            let st3 :=
              if ¬ (jt op).terminal then setBounds st2 (pos2 + 1) cs.min cs.max
              else st2
            Except.ok (st3, pos2)

/-- The `for pos := 0; pos < len(code); pos++` loop with explicit fuel. -/
def walk (code : List Nat) (sectionIdx : Nat) (metadata : List FunctionMetadata)
    (jt : JumpTable) : Nat → VState → Int → Except VErr VState
  | 0, st, pos =>
    if pos < (code.length : Int) then Except.error VErr.fuelExhausted else Except.ok st
  | fuel + 1, st, pos =>
    if pos < (code.length : Int) then
      match stepOnce code sectionIdx metadata jt st pos with
      | Except.error e => Except.error e
      | Except.ok (st1, pos1) => walk code sectionIdx metadata jt fuel st1 (pos1 + 1)
    else Except.ok st

/-- Initialization (`setBounds(0, inputs, inputs)` with `maxStackHeight`
starting at `inputs`) followed by the walk. -/
def validateRun (code : List Nat) (sectionIdx : Nat) (metadata : List FunctionMetadata)
    (jt : JumpTable) : Except VErr VState :=
  match metadata.get? sectionIdx with
  | none => Except.error VErr.panicErr
  | some secmd =>
    walk code sectionIdx metadata jt ((code.length + 1) * (code.length + 1))
      (setBounds ⟨[], secmd.Input⟩ 0 secmd.Input secmd.Input) 0

/-- validateControlFlow2 of src/unnamed/part_001: the walk, then the final
StackLimit and MaxStackHeight checks, returning the size of the bounds map
on success. -/
def validateControlFlow2 (code : List Nat) (sectionIdx : Nat)
    (metadata : List FunctionMetadata) (jt : JumpTable) : Except VErr Int :=
  match metadata.get? sectionIdx with
  | none => Except.error VErr.panicErr
  | some secmd =>
    match validateRun code sectionIdx metadata jt with
    | Except.error e => Except.error e
    | Except.ok st =>
      if st.maxStackHeight ≥ StackLimit then
        Except.error (VErr.stackOverflow st.maxStackHeight StackLimit)
      else if st.maxStackHeight ≠ secmd.MaxStackHeight then
        Except.error VErr.invalidMaxStackHeight
      else Except.ok (st.stackBounds.length : Int)

end VB

/-- The keys of the analyzer's bounds map are pairwise distinct (what a Go
map guarantees by construction). -/
def NodupKeys (st : VState) : Prop := (st.stackBounds.map Prod.fst).Nodup

/-- A successful `byteAt` read implies the index is inside the section. -/
theorem byteAt_bounds {code : List Nat} {i : Int} {b : Nat} (h : byteAt code i = some b) :
    0 ≤ i ∧ i < (code.length : Int) := by
  unfold byteAt at h
  split at h
  · exact Option.noConfusion h
  · next hi =>
    push_neg at hi
    have h2 : i.toNat < code.length := by
      by_contra hc
      push_neg at hc
      rw [List.get?_eq_none.mpr hc] at h
      exact Option.noConfusion h
    exact ⟨hi, by omega⟩

/-- Membership in the key set after a map write. -/
theorem bset_mem_keys (m : Bmap) (p : Int) (b : bounds) (x : Int) :
    x ∈ (bset m p b).map Prod.fst ↔ x = p ∨ x ∈ m.map Prod.fst := by
  induction m with
  | nil => simp [bset]
  | cons hd tl ih =>
    obtain ⟨q, c⟩ := hd
    by_cases hqp : q = p
    · subst hqp
      simp [bset]
    · simp only [bset, if_neg hqp, List.map_cons, List.mem_cons, ih]
      tauto

/-- A map write preserves distinctness of keys. -/
theorem bset_keys_nodup (m : Bmap) (p : Int) (b : bounds)
    (h : (m.map Prod.fst).Nodup) : ((bset m p b).map Prod.fst).Nodup := by
  induction m with
  | nil => simp [bset]
  | cons hd tl ih =>
    obtain ⟨q, c⟩ := hd
    simp only [List.map_cons, List.nodup_cons] at h
    by_cases hqp : q = p
    · subst hqp
      simpa [bset] using h
    · simp only [bset, if_neg hqp, List.map_cons, List.nodup_cons]
      refine ⟨?_, ih h.2⟩
      rw [bset_mem_keys]
      rintro (rfl | hx)
      · exact hqp rfl
      · exact h.1 hx

/-- `setBounds` preserves distinctness of keys. -/
theorem setBounds_nodup {st : VState} (h : NodupKeys st) (pos mn mx : Int) :
    NodupKeys (setBounds st pos mn mx) := bset_keys_nodup _ _ _ h

/-- The VA stack-check switch only ever returns the incoming state or a
`setBounds` of it, so it preserves key distinctness. -/
theorem checkOpA_nodup {code : List Nat} {sectionIdx : Nat} {metadata : List FunctionMetadata}
    {jt : JumpTable} {st : VState} {pos : Int} {op : Nat} {cur c : bounds} {st1 : VState}
    {pos1 : Int}
    (h : VA.checkOp code sectionIdx metadata jt st pos op cur = Except.ok (c, st1, pos1))
    (hnd : NodupKeys st) : NodupKeys st1 := by
  simp only [VA.checkOp] at h
  repeat' split at h
  all_goals
    first
    | exact Except.noConfusion h
    | (simp only [Except.ok.injEq, Prod.mk.injEq] at h
       obtain ⟨-, h2, -⟩ := h
       first
       | (rw [← h2]; exact hnd)
       | (rw [← h2]; exact setBounds_nodup hnd _ _ _))

/-- The VB stack-check switch preserves key distinctness. -/
theorem checkOpB_nodup {code : List Nat} {sectionIdx : Nat} {metadata : List FunctionMetadata}
    {jt : JumpTable} {st : VState} {pos : Int} {op : Nat} {cur c : bounds} {st1 : VState}
    {pos1 : Int}
    (h : VB.checkOp code sectionIdx metadata jt st pos op cur = Except.ok (c, st1, pos1))
    (hnd : NodupKeys st) : NodupKeys st1 := by
  simp only [VB.checkOp] at h
  repeat' split at h
  all_goals
    first
    | exact Except.noConfusion h
    | (simp only [Except.ok.injEq, Prod.mk.injEq] at h
       obtain ⟨-, h2, -⟩ := h
       first
       | (rw [← h2]; exact hnd)
       | (rw [← h2]; exact setBounds_nodup hnd _ _ _))

/-- One VA propagation step preserves key distinctness. -/
theorem propOneA_nodup {code : List Nat} {jt : JumpTable} {pos : Int} {cur : bounds}
    {st st1 : VState} {instr : Int}
    (h : VA.propOne code jt pos cur st instr = Except.ok st1)
    (hnd : NodupKeys st) : NodupKeys st1 := by
  simp only [VA.propOne] at h
  repeat' split at h
  all_goals
    first
    | exact Except.noConfusion h
    | (simp only [Except.ok.injEq] at h
       rw [← h]
       exact setBounds_nodup hnd _ _ _)

/-- One VB propagation step preserves key distinctness. -/
theorem propOneB_nodup {code : List Nat} {jt : JumpTable} {pos : Int} {cur cs : bounds}
    {st st1 : VState} {instr : Int}
    (h : VB.propOne code jt pos cur cs st instr = Except.ok st1)
    (hnd : NodupKeys st) : NodupKeys st1 := by
  simp only [VB.propOne] at h
  repeat' split at h
  all_goals
    first
    | exact Except.noConfusion h
    | (simp only [Except.ok.injEq] at h
       rw [← h]
       first
       | exact hnd
       | exact setBounds_nodup hnd _ _ _)

/-- The VA propagation loop preserves key distinctness. -/
theorem propagateA_nodup {code : List Nat} {jt : JumpTable} {pos : Int} {cur : bounds} :
    ∀ (l : List Int) {st st1 : VState},
      VA.propagate code jt pos cur st l = Except.ok st1 → NodupKeys st → NodupKeys st1 := by
  intro l
  induction l with
  | nil =>
    intro st st1 h hnd
    simp only [VA.propagate, Except.ok.injEq] at h
    rwa [← h]
  | cons a tl ih =>
    intro st st1 h hnd
    simp only [VA.propagate] at h
    split at h
    · exact Except.noConfusion h
    · next st2 heq => exact ih h (propOneA_nodup heq hnd)

/-- The VB propagation loop preserves key distinctness. -/
theorem propagateB_nodup {code : List Nat} {jt : JumpTable} {pos : Int} {cur cs : bounds} :
    ∀ (l : List Int) {st st1 : VState},
      VB.propagate code jt pos cur cs st l = Except.ok st1 → NodupKeys st → NodupKeys st1 := by
  intro l
  induction l with
  | nil =>
    intro st st1 h hnd
    simp only [VB.propagate, Except.ok.injEq] at h
    rwa [← h]
  | cons a tl ih =>
    intro st st1 h hnd
    simp only [VB.propagate] at h
    split at h
    · exact Except.noConfusion h
    · next st2 heq => exact ih h (propOneB_nodup heq hnd)

/-- One VA loop iteration preserves key distinctness. -/
theorem stepOnceA_nodup {code : List Nat} {sectionIdx : Nat} {metadata : List FunctionMetadata}
    {jt : JumpTable} {st st1 : VState} {pos pos1 : Int}
    (h : VA.stepOnce code sectionIdx metadata jt st pos = Except.ok (st1, pos1))
    (hnd : NodupKeys st) : NodupKeys st1 := by
  simp only [VA.stepOnce] at h
  split at h
  · exact Except.noConfusion h
  split at h
  · exact Except.noConfusion h
  split at h
  · exact Except.noConfusion h
  next cur st2 pos2 heqCheck =>
  split at h
  · exact Except.noConfusion h
  next nxt heqNext =>
  split at h
  · exact Except.noConfusion h
  next st3 heqProp =>
  have hnd3 : NodupKeys st3 :=
    propagateA_nodup _ heqProp (checkOpA_nodup heqCheck hnd)
  simp only [Except.ok.injEq, Prod.mk.injEq] at h
  obtain ⟨h2, -⟩ := h
  rw [← h2]
  split
  · exact setBounds_nodup hnd3 _ _ _
  · exact hnd3

/-- One VB loop iteration preserves key distinctness. -/
theorem stepOnceB_nodup {code : List Nat} {sectionIdx : Nat} {metadata : List FunctionMetadata}
    {jt : JumpTable} {st st1 : VState} {pos pos1 : Int}
    (h : VB.stepOnce code sectionIdx metadata jt st pos = Except.ok (st1, pos1))
    (hnd : NodupKeys st) : NodupKeys st1 := by
  simp only [VB.stepOnce] at h
  split at h
  · exact Except.noConfusion h
  split at h
  · exact Except.noConfusion h
  split at h
  · exact Except.noConfusion h
  next cur st2 pos2 heqCheck =>
  split at h
  · exact Except.noConfusion h
  next nxt heqNext =>
  split at h
  · exact Except.noConfusion h
  next st3 heqProp =>
  have hnd3 : NodupKeys st3 :=
    propagateB_nodup _ heqProp (checkOpB_nodup heqCheck hnd)
  simp only [Except.ok.injEq, Prod.mk.injEq] at h
  obtain ⟨h2, -⟩ := h
  rw [← h2]
  split
  · exact setBounds_nodup hnd3 _ _ _
  · exact hnd3

/-- The VA walk preserves key distinctness. -/
theorem walkA_nodup {code : List Nat} {sectionIdx : Nat} {metadata : List FunctionMetadata}
    {jt : JumpTable} :
    ∀ (fuel : Nat) {st st1 : VState} {pos : Int},
      VA.walk code sectionIdx metadata jt fuel st pos = Except.ok st1 →
      NodupKeys st → NodupKeys st1 := by
  intro fuel
  induction fuel with
  | zero =>
    intro st st1 pos h hnd
    simp only [VA.walk] at h
    split at h
    · exact Except.noConfusion h
    · simp only [Except.ok.injEq] at h
      rwa [← h]
  | succ n ih =>
    intro st st1 pos h hnd
    simp only [VA.walk] at h
    split at h
    · split at h
      · exact Except.noConfusion h
      · next st2 pos2 heq => exact ih h (stepOnceA_nodup heq hnd)
    · simp only [Except.ok.injEq] at h
      rwa [← h]

/-- The VB walk preserves key distinctness. -/
theorem walkB_nodup {code : List Nat} {sectionIdx : Nat} {metadata : List FunctionMetadata}
    {jt : JumpTable} :
    ∀ (fuel : Nat) {st st1 : VState} {pos : Int},
      VB.walk code sectionIdx metadata jt fuel st pos = Except.ok st1 →
      NodupKeys st → NodupKeys st1 := by
  intro fuel
  induction fuel with
  | zero =>
    intro st st1 pos h hnd
    simp only [VB.walk] at h
    split at h
    · exact Except.noConfusion h
    · simp only [Except.ok.injEq] at h
      rwa [← h]
  | succ n ih =>
    intro st st1 pos h hnd
    simp only [VB.walk] at h
    split at h
    · split at h
      · exact Except.noConfusion h
      · next st2 pos2 heq => exact ih h (stepOnceB_nodup heq hnd)
    · simp only [Except.ok.injEq] at h
      rwa [← h]

/-- Every state produced by a successful VA run has distinct keys. -/
theorem validateRunA_nodup {code : List Nat} {sectionIdx : Nat}
    {metadata : List FunctionMetadata} {jt : JumpTable} {st1 : VState}
    (h : VA.validateRun code sectionIdx metadata jt = Except.ok st1) : NodupKeys st1 := by
  unfold VA.validateRun at h
  split at h
  · exact Except.noConfusion h
  · exact walkA_nodup _ h (by simp [NodupKeys, bset])

/-- Every state produced by a successful VB run has distinct keys. -/
theorem validateRunB_nodup {code : List Nat} {sectionIdx : Nat}
    {metadata : List FunctionMetadata} {jt : JumpTable} {st1 : VState}
    (h : VB.validateRun code sectionIdx metadata jt = Except.ok st1) : NodupKeys st1 := by
  unfold VB.validateRun at h
  split at h
  · exact Except.noConfusion h
  · exact walkB_nodup _ h (by simp [NodupKeys, setBounds, bset])

/-- Claim C3 (code bug): both variants accept a reachable RETF whose entry
height (1) differs from the enclosing section's declared outputs (0),
because the source compares `declared outputs > entry min` instead of
requiring equality (its own inline TODO says the comparison should be
`!=`).  The claim — rejection with ErrInvalidOutputs for a difference in
either direction — demands this input be rejected. -/
theorem c3_retf_asymmetric :
    VA.validateControlFlow2 [0xE4] 0 [⟨1, 0, 1⟩] jtEOF = Except.ok 1 ∧
    VB.validateControlFlow2 [0xE4] 0 [⟨1, 0, 1⟩] jtEOF = Except.ok 1 := by
  decide

/-- Claim C4 (confirmed, spec-modelled): a CALLF callee with outputs 0x80
(non-returning) is rejected with ErrCallfToNonReturning, and the check
passes exactly when the callee is returning (outputs at most 0x7F). -/
theorem c4_callf_non_returning (t : FunctionMetadata) :
    (t.Output = 0x80 → callfCalleeCheck t = Except.error VErr.callfToNonReturning) ∧
    (callfCalleeCheck t = Except.ok () ↔ t.Output ≤ 0x7F) := by
  constructor
  · intro h
    unfold callfCalleeCheck
    rw [h]
    norm_num
  · unfold callfCalleeCheck
    constructor
    · intro h
      by_contra hc
      rw [if_neg hc] at h
      exact Except.noConfusion h
    · intro h
      rw [if_pos h]

/-- Witness for C4 at the non-returning callee (0, 0x80, 0). -/
theorem c4_witness :
    callfCalleeCheck ⟨0, 0x80, 0⟩ = Except.error VErr.callfToNonReturning :=
  (c4_callf_non_returning ⟨0, 0x80, 0⟩).1 rfl

/-- Claim C6 (code bug): for an RJUMPV with count byte c, the successor
loop runs only `count - 1 = c` times, so the last of the `c + 1` table
entries is never decoded.  With count byte 0 the single entry (here the
out-of-section offset 0xFFAA) is never decoded or checked, the successor
list holds only the fall-through, and both variants accept the section —
while the interpreter's opRjumpv can take the unvalidated jump.  The VA
successor list `[5]` additionally shows its fall-through is one byte past
the correct table end (the correct value, computed by VB, is `[4]`). -/
theorem c6_rjumpv_missing_entry :
    VA.validateControlFlow2 [0x5F, 0xE2, 0x00, 0xFF, 0xAA, 0x00] 0 [⟨0, 0, 1⟩] jtEOF =
      Except.ok 3 ∧
    VB.validateControlFlow2 [0x5F, 0xE2, 0x00, 0xFF, 0xAA, 0x00] 0 [⟨0, 0, 1⟩] jtEOF =
      Except.ok 3 ∧
    VB.next [0x5F, 0xE2, 0x00, 0xFF, 0xAA, 0x00] jtEOF 1 RJUMPV = Except.ok [4] ∧
    VA.next [0x5F, 0xE2, 0x00, 0xFF, 0xAA, 0x00] jtEOF 1 RJUMPV = Except.ok [5] := by
  decide

/-- Counterexample for C1: three concrete runs violating the claim.
First, the self-loop `PUSH0; RJUMPI -3; STOP` has a successor edge from
offset 1 to offset 1 (so t = s, a back-edge by the claim); VB accepts the
section and the bounds stored at offset 1 end up widened to (0, 1), which
differs from the exit bounds (0, 0) at the source — no
ErrInvalidBackwardJump is raised.  Second, in
`PUSH0; DUP1; PUSH0; RJUMPI -5; STOP` the back-edge from offset 3 to
offset 1 has stored entry bounds (1, 1) while the exit bounds at the
source are (2, 2), yet VB accepts.  Third, VA accepts
`PUSH1 1; RJUMPI -4; STOP`, whose branch edge jumps backwards into offset
1 (inside the PUSH1 immediate) where no entry bounds were ever stored —
the claim requires ErrInvalidBackwardJump. -/
theorem c1_counterexample :
    (VB.validateControlFlow2 [0x5F, 0xE1, 0xFF, 0xFD, 0x00] 0 [⟨0, 0, 1⟩] jtEOF =
        Except.ok 3 ∧
      VB.next [0x5F, 0xE1, 0xFF, 0xFD, 0x00] jtEOF 1 RJUMPI = Except.ok [3, 0] ∧
      (VB.validateRun [0x5F, 0xE1, 0xFF, 0xFD, 0x00] 0 [⟨0, 0, 1⟩] jtEOF).map
        (fun st => blookup st.stackBounds 1) = Except.ok (some ⟨0, 1⟩)) ∧
    (VB.validateControlFlow2 [0x5F, 0x80, 0x5F, 0xE1, 0xFF, 0xFB, 0x00] 0 [⟨0, 0, 3⟩] jtEOF =
        Except.ok 5 ∧
      (VB.validateRun [0x5F, 0x80, 0x5F, 0xE1, 0xFF, 0xFB, 0x00] 0 [⟨0, 0, 3⟩] jtEOF).map
        (fun st => blookup st.stackBounds 1) = Except.ok (some ⟨1, 1⟩)) ∧
    VA.validateControlFlow2 [0x60, 0x01, 0xE1, 0xFF, 0xFC, 0x00] 0 [⟨0, 0, 2⟩] jtEOF =
      Except.ok 4 := by
  decide

/-- Counterexample for C2: after four CALLFs into a callee declared
(inputs 0, outputs 255, max height 0) the observed maximum is 1275, which
disagrees with the declared MaxStackHeight 0 — yet both variants reject
with ErrStackOverflow(1275, 1024), not ErrInvalidMaxStackHeight, because
the StackLimit comparison runs first. -/
theorem c2_counterexample :
    VA.validateControlFlow2
        [0xE3, 0x00, 0x01, 0xE3, 0x00, 0x01, 0xE3, 0x00, 0x01, 0xE3, 0x00, 0x01, 0x00]
        0 [⟨255, 0, 0⟩, ⟨0, 255, 0⟩] jtEOF = Except.error (VErr.stackOverflow 1275 1024) ∧
    VB.validateControlFlow2
        [0xE3, 0x00, 0x01, 0xE3, 0x00, 0x01, 0xE3, 0x00, 0x01, 0xE3, 0x00, 0x01, 0x00]
        0 [⟨255, 0, 0⟩, ⟨0, 255, 0⟩] jtEOF = Except.error (VErr.stackOverflow 1275 1024) ∧
    (VA.validateRun
        [0xE3, 0x00, 0x01, 0xE3, 0x00, 0x01, 0xE3, 0x00, 0x01, 0xE3, 0x00, 0x01, 0x00]
        0 [⟨255, 0, 0⟩, ⟨0, 255, 0⟩] jtEOF).map (fun st => st.maxStackHeight) =
      Except.ok 1275 ∧
    (VB.validateRun
        [0xE3, 0x00, 0x01, 0xE3, 0x00, 0x01, 0xE3, 0x00, 0x01, 0xE3, 0x00, 0x01, 0x00]
        0 [⟨255, 0, 0⟩, ⟨0, 255, 0⟩] jtEOF).map (fun st => st.maxStackHeight) =
      Except.ok 1275 := by
  decide

/-- Counterexample for C5: a JUMPF into a non-returning callee with entry
min exactly equal to the callee's declared inputs (both 2).  The claim
says this must be accepted, but the validate_linear.go variant rejects it
with ErrStackUnderflow(2, 2); the part_001 variant accepts. -/
theorem c5_counterexample :
    VA.validateControlFlow2 [0xE5, 0x00, 0x01] 0 [⟨2, 0, 2⟩, ⟨2, 0x80, 2⟩] jtEOF =
      Except.error (VErr.stackUnderflow 2 2) ∧
    VB.validateControlFlow2 [0xE5, 0x00, 0x01] 0 [⟨2, 0, 2⟩, ⟨2, 0x80, 2⟩] jtEOF =
      Except.ok 2 := by
  decide

/-- Counterexample for C7: a CALLF — and likewise a JUMPF into a
non-returning callee — whose entry max (255) plus callee max_stack_height
(769) minus callee inputs (0) equals exactly 1024, which exceeds the
claim's limit of 1023 — yet both variants accept both sections, because
the source compares against params.StackLimit = 1024. -/
theorem c7_counterexample :
    VA.validateControlFlow2 [0xE3, 0x00, 0x01, 0x00] 0 [⟨255, 0, 255⟩, ⟨0, 0, 769⟩] jtEOF =
      Except.ok 2 ∧
    VB.validateControlFlow2 [0xE3, 0x00, 0x01, 0x00] 0 [⟨255, 0, 255⟩, ⟨0, 0, 769⟩] jtEOF =
      Except.ok 2 ∧
    VA.validateControlFlow2 [0xE5, 0x00, 0x01] 0 [⟨255, 0, 255⟩, ⟨0, 0x80, 769⟩] jtEOF =
      Except.ok 2 ∧
    VB.validateControlFlow2 [0xE5, 0x00, 0x01] 0 [⟨255, 0, 255⟩, ⟨0, 0x80, 769⟩] jtEOF =
      Except.ok 2 := by
  decide

/-- Counterexample for C8: DUPN with operand byte 0 (n = 1) reached with
entry min 1.  The claim requires min ≥ n + 1 = 2, hence rejection with
ErrStackUnderflow; the part_001 variant accepts the section (its check is
`n > min`), while the validate_linear.go variant rejects as claimed. -/
theorem c8_counterexample :
    VB.validateControlFlow2 [0xE6, 0x00, 0x00] 0 [⟨1, 0, 2⟩] jtEOF = Except.ok 2 ∧
    VA.validateControlFlow2 [0xE6, 0x00, 0x00] 0 [⟨1, 0, 2⟩] jtEOF =
      Except.error (VErr.stackUnderflow 1 1) := by
  decide

/-- Claim C9 (confirmed): visiting an instruction offset whose entry
bounds are unset fails with ErrUnreachableCode, in both variants; in
particular the program `E0 0001 33 00` (RJUMP +1; CALLER; STOP) with
declared MaxStackHeight 0 is rejected with ErrUnreachableCode by both. -/
theorem c9_unreachable (code : List Nat) (sectionIdx : Nat)
    (metadata : List FunctionMetadata) (jt : JumpTable) (st : VState) (pos : Int) (op : Nat)
    (hbyte : byteAt code pos = some op)
    (hnone : blookup st.stackBounds pos = none) :
    VA.stepOnce code sectionIdx metadata jt st pos = Except.error VErr.unreachableCode ∧
    VB.stepOnce code sectionIdx metadata jt st pos = Except.error VErr.unreachableCode ∧
    VA.validateControlFlow2 [0xE0, 0x00, 0x01, 0x33, 0x00] 0 [⟨0, 0, 0⟩] jtEOF =
      Except.error VErr.unreachableCode ∧
    VB.validateControlFlow2 [0xE0, 0x00, 0x01, 0x33, 0x00] 0 [⟨0, 0, 0⟩] jtEOF =
      Except.error VErr.unreachableCode := by
  refine ⟨?_, ?_, by decide, by decide⟩
  · unfold VA.stepOnce
    rw [hbyte, hnone]
  · unfold VB.stepOnce
    rw [hbyte, hnone]

/-- Witness for C9: the STOP-only section visited at offset 0 with an
empty bounds map. -/
theorem c9_witness :
    VA.stepOnce [0x00] 0 [] jtEOF ⟨[], 0⟩ 0 = Except.error VErr.unreachableCode ∧
    VB.stepOnce [0x00] 0 [] jtEOF ⟨[], 0⟩ 0 = Except.error VErr.unreachableCode :=
  ⟨(c9_unreachable [0x00] 0 [] jtEOF ⟨[], 0⟩ 0 0 (by decide) (by decide)).1,
   (c9_unreachable [0x00] 0 [] jtEOF ⟨[], 0⟩ 0 0 (by decide) (by decide)).2.1⟩

/-- Claim C10 (confirmed): when either variant returns successfully, the
returned integer is the size of the bounds map of the final walk state,
whose keys (the code offsets that received entry bounds) are pairwise
distinct — it is the number of distinct offsets recorded, not the computed
maximum stack height. -/
theorem c10_return_value (code : List Nat) (sectionIdx : Nat)
    (metadata : List FunctionMetadata) (jt : JumpTable) :
    (∀ (n : Int) (st : VState),
      VA.validateControlFlow2 code sectionIdx metadata jt = Except.ok n →
      VA.validateRun code sectionIdx metadata jt = Except.ok st →
      n = (st.stackBounds.length : Int) ∧ (st.stackBounds.map Prod.fst).Nodup) ∧
    (∀ (n : Int) (st : VState),
      VB.validateControlFlow2 code sectionIdx metadata jt = Except.ok n →
      VB.validateRun code sectionIdx metadata jt = Except.ok st →
      n = (st.stackBounds.length : Int) ∧ (st.stackBounds.map Prod.fst).Nodup) := by
  constructor
  · intro n st hv hr
    have hnd := validateRunA_nodup hr
    unfold VA.validateControlFlow2 at hv
    split at hv
    · exact Except.noConfusion hv
    split at hv
    · exact Except.noConfusion hv
    next st2 heq2 =>
    rw [hr] at heq2
    injection heq2 with h3
    subst h3
    split at hv
    · exact Except.noConfusion hv
    split at hv
    · exact Except.noConfusion hv
    simp only [Except.ok.injEq] at hv
    exact ⟨hv.symm, hnd⟩
  · intro n st hv hr
    have hnd := validateRunB_nodup hr
    unfold VB.validateControlFlow2 at hv
    split at hv
    · exact Except.noConfusion hv
    split at hv
    · exact Except.noConfusion hv
    next st2 heq2 =>
    rw [hr] at heq2
    injection heq2 with h3
    subst h3
    split at hv
    · exact Except.noConfusion hv
    split at hv
    · exact Except.noConfusion hv
    simp only [Except.ok.injEq] at hv
    exact ⟨hv.symm, hnd⟩

/-- Witness for C10: `CALLER; POP; STOP` returns 3, the size of the final
bounds map (offsets 0, 1, 2), while the computed maximum height is 1. -/
theorem c10_witness :
    (3 : Int) =
      ((⟨[(0, ⟨0, 0⟩), (1, ⟨1, 1⟩), (2, ⟨1, 1⟩)], 1⟩ : VState).stackBounds.length : Int) ∧
    ((⟨[(0, ⟨0, 0⟩), (1, ⟨1, 1⟩), (2, ⟨1, 1⟩)], 1⟩ : VState).stackBounds.map Prod.fst).Nodup :=
  (c10_return_value [0x33, 0x50, 0x00] 0 [⟨0, 0, 1⟩] jtEOF).1 3
    ⟨[(0, ⟨0, 0⟩), (1, ⟨1, 1⟩), (2, ⟨1, 1⟩)], 1⟩ (by decide) (by decide)

/-- Claim C2 (amended): in both variants a successful run forces the
observed maximum (`maxStackHeight` of the final walk state) to equal the
declared MaxStackHeight, and a disagreement is reported as
ErrInvalidMaxStackHeight provided the observed maximum is below
StackLimit; an observed maximum at or above StackLimit is rejected first
as ErrStackOverflow (see the counterexample) regardless of the declared
value. -/
theorem c2_amended_max_stack (code : List Nat) (sectionIdx : Nat)
    (metadata : List FunctionMetadata) (jt : JumpTable) (secmd : FunctionMetadata)
    (hsec : metadata.get? sectionIdx = some secmd) :
    (∀ (n : Int) (st : VState),
      VA.validateControlFlow2 code sectionIdx metadata jt = Except.ok n →
      VA.validateRun code sectionIdx metadata jt = Except.ok st →
      st.maxStackHeight = secmd.MaxStackHeight) ∧
    (∀ st : VState,
      VA.validateRun code sectionIdx metadata jt = Except.ok st →
      st.maxStackHeight < StackLimit → st.maxStackHeight ≠ secmd.MaxStackHeight →
      VA.validateControlFlow2 code sectionIdx metadata jt =
        Except.error VErr.invalidMaxStackHeight) ∧
    (∀ (n : Int) (st : VState),
      VB.validateControlFlow2 code sectionIdx metadata jt = Except.ok n →
      VB.validateRun code sectionIdx metadata jt = Except.ok st →
      st.maxStackHeight = secmd.MaxStackHeight) ∧
    (∀ st : VState,
      VB.validateRun code sectionIdx metadata jt = Except.ok st →
      st.maxStackHeight < StackLimit → st.maxStackHeight ≠ secmd.MaxStackHeight →
      VB.validateControlFlow2 code sectionIdx metadata jt =
        Except.error VErr.invalidMaxStackHeight) := by
  refine ⟨?_, ?_, ?_, ?_⟩
  · intro n st hv hr
    unfold VA.validateControlFlow2 at hv
    split at hv
    · exact Except.noConfusion hv
    next secmd2 hsec2 =>
    rw [hsec] at hsec2
    injection hsec2 with h0
    subst h0
    split at hv
    · exact Except.noConfusion hv
    next st2 heq2 =>
    rw [hr] at heq2
    injection heq2 with h3
    subst h3
    split at hv
    · exact Except.noConfusion hv
    split at hv
    · exact Except.noConfusion hv
    next hne =>
    push_neg at hne
    exact hne
  · intro st hr hlt hne
    unfold VA.validateControlFlow2
    split
    · next hsec2 =>
      rw [hsec] at hsec2
      exact Option.noConfusion hsec2
    next secmd2 hsec2 =>
    rw [hsec] at hsec2
    injection hsec2 with h0
    subst h0
    split
    · next heq2 =>
      rw [hr] at heq2
      exact Except.noConfusion heq2
    next st2 heq2 =>
    rw [hr] at heq2
    injection heq2 with h3
    subst h3
    rw [if_neg (not_le.mpr hlt), if_pos hne]
  · intro n st hv hr
    unfold VB.validateControlFlow2 at hv
    split at hv
    · exact Except.noConfusion hv
    next secmd2 hsec2 =>
    rw [hsec] at hsec2
    injection hsec2 with h0
    subst h0
    split at hv
    · exact Except.noConfusion hv
    next st2 heq2 =>
    rw [hr] at heq2
    injection heq2 with h3
    subst h3
    split at hv
    · exact Except.noConfusion hv
    split at hv
    · exact Except.noConfusion hv
    next hne =>
    push_neg at hne
    exact hne
  · intro st hr hlt hne
    unfold VB.validateControlFlow2
    split
    · next hsec2 =>
      rw [hsec] at hsec2
      exact Option.noConfusion hsec2
    next secmd2 hsec2 =>
    rw [hsec] at hsec2
    injection hsec2 with h0
    subst h0
    split
    · next heq2 =>
      rw [hr] at heq2
      exact Except.noConfusion heq2
    next st2 heq2 =>
    rw [hr] at heq2
    injection heq2 with h3
    subst h3
    rw [if_neg (not_le.mpr hlt), if_pos hne]

/-- Witness for C2: for `CALLER; POP; STOP` with declared MaxStackHeight
1 the accepted run's final state has maxStackHeight 1, the declared
value. -/
theorem c2_witness :
    (⟨[(0, ⟨0, 0⟩), (1, ⟨1, 1⟩), (2, ⟨1, 1⟩)], 1⟩ : VState).maxStackHeight =
      (⟨0, 0, 1⟩ : FunctionMetadata).MaxStackHeight :=
  (c2_amended_max_stack [0x33, 0x50, 0x00] 0 [⟨0, 0, 1⟩] jtEOF ⟨0, 0, 1⟩ (by decide)).1 3
    ⟨[(0, ⟨0, 0⟩), (1, ⟨1, 1⟩), (2, ⟨1, 1⟩)], 1⟩ (by decide) (by decide)

/-- Claim C5 (amended): at a JUMPF into a non-returning callee (outputs
0x80) that passes the stack-limit check, the part_001 variant rejects
with ErrStackUnderflow exactly when entry min is strictly below the
callee's inputs (min equal to inputs is accepted, as the claim states),
while the validate_linear.go variant compares non-strictly: entry min
equal to the callee's inputs is also rejected with ErrStackUnderflow. -/
theorem c5_amended_jumpf_underflow (code : List Nat) (sectionIdx : Nat)
    (metadata : List FunctionMetadata) (jt : JumpTable) (st : VState) (pos arg : Int)
    (ns : FunctionMetadata) (cur : bounds)
    (hparse : parseUint16 code (pos + 1) = some arg)
    (hmd : metadata.get? arg.toNat = some ns)
    (hout : ns.Output = 0x80)
    (hovf : ¬ cur.max + ns.MaxStackHeight - ns.Input > StackLimit) :
    (VA.checkOp code sectionIdx metadata jt st pos JUMPF cur =
      if ns.Input ≥ cur.min then Except.error (VErr.stackUnderflow cur.min ns.Input)
      else Except.ok (cur, st, pos)) ∧
    (VB.checkOp code sectionIdx metadata jt st pos JUMPF cur =
      if ns.Input > cur.min then Except.error (VErr.stackUnderflow cur.min ns.Input)
      else Except.ok (cur, st, pos)) := by
  constructor
  · simp only [VA.checkOp]
    rw [if_neg (by decide : ¬ (JUMPF = CALLF)), if_neg (by decide : ¬ (JUMPF = RETF))]
    simp only [if_true]
    simp only [hparse, hmd, hout]
    simp [hovf]
  · simp only [VB.checkOp]
    rw [if_neg (by decide : ¬ (JUMPF = CALLF)), if_neg (by decide : ¬ (JUMPF = RETF))]
    simp only [if_true]
    simp only [hparse, hmd, hout]
    simp [hovf]

/-- Witness for C5: a JUMPF whose non-returning callee declares inputs 0
against entry bounds (5, 5) passes the part_001 check. -/
theorem c5_witness :
    VB.checkOp [0xE5, 0x00, 0x00] 0 [⟨0, 0x80, 0⟩] jtEOF ⟨[], 0⟩ 0 JUMPF ⟨5, 5⟩ =
      Except.ok (⟨5, 5⟩, ⟨[], 0⟩, 0) := by
  have h := (c5_amended_jumpf_underflow [0xE5, 0x00, 0x00] 0 [⟨0, 0x80, 0⟩] jtEOF ⟨[], 0⟩ 0 0
    ⟨0, 0x80, 0⟩ ⟨5, 5⟩ (by decide) (by decide) (by decide) (by decide)).2
  rw [h]
  decide

/-- Claim C7 (amended): in both variants the stack-limit comparison at
CALLF and at JUMPF is against params.StackLimit = 1024, not 1023.  At a
CALLF that passes the input check, the step rejects with ErrStackOverflow
exactly when entry max plus the callee's max_stack_height minus its
inputs exceeds 1024; a sum of exactly 1024 passes and the bounds at pos
are rewritten by the callee's net output change.  At a JUMPF the same sum
exceeding 1024 is rejected with ErrStackOverflow, and when it does not
exceed 1024 the step never reports ErrStackOverflow (the remaining JUMPF
checks only ever yield ErrStackUnderflow, ErrInvalidNumberOfOutputs or
success). -/
theorem c7_amended_callf_jumpf_overflow (code : List Nat) (sectionIdx : Nat)
    (metadata : List FunctionMetadata) (jt : JumpTable) (st : VState) (pos arg : Int)
    (ns : FunctionMetadata) (cur : bounds)
    (hparse : parseUint16 code (pos + 1) = some arg)
    (hmd : metadata.get? arg.toNat = some ns) :
    (¬ ns.Input > cur.min →
      VA.checkOp code sectionIdx metadata jt st pos CALLF cur =
        if cur.max + ns.MaxStackHeight - ns.Input > StackLimit then
          Except.error (VErr.stackOverflow (cur.max + ns.MaxStackHeight - ns.Input) StackLimit)
        else
          Except.ok (⟨cur.min + (ns.Output - ns.Input), cur.max + (ns.Output - ns.Input)⟩,
            setBounds st pos (cur.min + (ns.Output - ns.Input))
              (cur.max + (ns.Output - ns.Input)), pos)) ∧
    (¬ ns.Input > cur.min →
      VB.checkOp code sectionIdx metadata jt st pos CALLF cur =
        if cur.max + ns.MaxStackHeight - ns.Input > StackLimit then
          Except.error (VErr.stackOverflow (cur.max + ns.MaxStackHeight - ns.Input) StackLimit)
        else
          Except.ok (⟨cur.min + (ns.Output - ns.Input), cur.max + (ns.Output - ns.Input)⟩,
            setBounds st pos (cur.min + (ns.Output - ns.Input))
              (cur.max + (ns.Output - ns.Input)), pos)) ∧
    (cur.max + ns.MaxStackHeight - ns.Input > StackLimit →
      VA.checkOp code sectionIdx metadata jt st pos JUMPF cur =
        Except.error (VErr.stackOverflow (cur.max + ns.MaxStackHeight - ns.Input) StackLimit)) ∧
    (cur.max + ns.MaxStackHeight - ns.Input > StackLimit →
      VB.checkOp code sectionIdx metadata jt st pos JUMPF cur =
        Except.error (VErr.stackOverflow (cur.max + ns.MaxStackHeight - ns.Input) StackLimit)) ∧
    (¬ cur.max + ns.MaxStackHeight - ns.Input > StackLimit →
      ∀ a b : Int, VA.checkOp code sectionIdx metadata jt st pos JUMPF cur ≠
        Except.error (VErr.stackOverflow a b)) ∧
    (¬ cur.max + ns.MaxStackHeight - ns.Input > StackLimit →
      ∀ a b : Int, VB.checkOp code sectionIdx metadata jt st pos JUMPF cur ≠
        Except.error (VErr.stackOverflow a b)) := by
  refine ⟨?_, ?_, ?_, ?_, ?_, ?_⟩
  · intro hin
    simp only [VA.checkOp, eq_self_iff_true, if_true]
    simp only [hparse, hmd]
    simp [hin]
  · intro hin
    simp only [VB.checkOp, eq_self_iff_true, if_true]
    simp only [hparse, hmd]
    simp [hin]
  · intro hovf
    simp only [VA.checkOp]
    rw [if_neg (by decide : ¬ (JUMPF = CALLF)), if_neg (by decide : ¬ (JUMPF = RETF))]
    simp only [if_true]
    simp only [hparse, hmd]
    rw [if_pos hovf]
  · intro hovf
    simp only [VB.checkOp]
    rw [if_neg (by decide : ¬ (JUMPF = CALLF)), if_neg (by decide : ¬ (JUMPF = RETF))]
    simp only [if_true]
    simp only [hparse, hmd]
    rw [if_pos hovf]
  · intro hovf a b
    simp only [VA.checkOp]
    rw [if_neg (by decide : ¬ (JUMPF = CALLF)), if_neg (by decide : ¬ (JUMPF = RETF))]
    simp only [if_true]
    simp only [hparse, hmd]
    rw [if_neg hovf]
    repeat' split
    all_goals simp
  · intro hovf a b
    simp only [VB.checkOp]
    rw [if_neg (by decide : ¬ (JUMPF = CALLF)), if_neg (by decide : ¬ (JUMPF = RETF))]
    simp only [if_true]
    simp only [hparse, hmd]
    rw [if_neg hovf]
    repeat' split
    all_goals simp

/-- Witness for C7: a CALLF with callee (0, 0, 0) and entry bounds (5, 5)
— the sum 5 is within the limit and the step succeeds; a JUMPF against
entry bounds (5, 1030) with the non-returning callee (0, 0x80, 0) — the
sum 1030 exceeds the limit and the step fails with
ErrStackOverflow(1030, 1024); and a JUMPF against entry bounds (5, 5) —
within the limit — is never an ErrStackOverflow. -/
theorem c7_witness :
    VA.checkOp [0xE3, 0x00, 0x00] 0 [⟨0, 0, 0⟩] jtEOF ⟨[], 0⟩ 0 CALLF ⟨5, 5⟩ =
      Except.ok (⟨5, 5⟩, ⟨[(0, ⟨5, 5⟩)], 5⟩, 0) ∧
    VB.checkOp [0xE5, 0x00, 0x00] 0 [⟨0, 0x80, 0⟩] jtEOF ⟨[], 0⟩ 0 JUMPF ⟨5, 1030⟩ =
      Except.error (VErr.stackOverflow 1030 1024) ∧
    VA.checkOp [0xE5, 0x00, 0x00] 0 [⟨0, 0x80, 0⟩] jtEOF ⟨[], 0⟩ 0 JUMPF ⟨5, 5⟩ ≠
      Except.error (VErr.stackOverflow 1024 1024) := by
  refine ⟨?_, ?_, ?_⟩
  · have h := (c7_amended_callf_jumpf_overflow [0xE3, 0x00, 0x00] 0 [⟨0, 0, 0⟩] jtEOF ⟨[], 0⟩
      0 0 ⟨0, 0, 0⟩ ⟨5, 5⟩ (by decide) (by decide)).1 (by decide)
    rw [h]
    decide
  · have h := (c7_amended_callf_jumpf_overflow [0xE5, 0x00, 0x00] 0 [⟨0, 0x80, 0⟩] jtEOF
      ⟨[], 0⟩ 0 0 ⟨0, 0x80, 0⟩ ⟨5, 1030⟩ (by decide) (by decide)).2.2.2.1 (by decide)
    rw [h]
    decide
  · exact (c7_amended_callf_jumpf_overflow [0xE5, 0x00, 0x00] 0 [⟨0, 0x80, 0⟩] jtEOF
      ⟨[], 0⟩ 0 0 ⟨0, 0x80, 0⟩ ⟨5, 5⟩ (by decide) (by decide)).2.2.2.2.1 (by decide) 1024 1024

/-- Claim C8 (amended): at DUPN or SWAPN with operand byte v (so n = v+1),
the validate_linear.go variant behaves as claimed — it rejects with
ErrStackUnderflow exactly when entry min is at most n, i.e. accepts only
min ≥ n + 1 — while the part_001 variant compares strictly and accepts
entry min equal to n, rejecting only min < n. -/
theorem c8_amended_dupn_swapn (code : List Nat) (sectionIdx : Nat)
    (metadata : List FunctionMetadata) (jt : JumpTable) (st : VState) (pos : Int)
    (op v : Nat) (cur : bounds)
    (hop : op = DUPN ∨ op = SWAPN)
    (hbyte : byteAt code (pos + 1) = some v) :
    (VA.checkOp code sectionIdx metadata jt st pos op cur =
      if ((v : Int) + 1) ≥ cur.min then
        Except.error (VErr.stackUnderflow cur.min ((v : Int) + 1))
      else Except.ok (cur, st, pos + 2)) ∧
    (VB.checkOp code sectionIdx metadata jt st pos op cur =
      if ((v : Int) + 1) > cur.min then
        Except.error (VErr.stackUnderflow cur.min ((v : Int) + 1))
      else Except.ok (cur, st, pos + 2)) := by
  rcases hop with h | h <;> subst h <;> constructor <;>
    simp [VA.checkOp, VB.checkOp, hbyte, DUPN, SWAPN, CALLF, RETF, JUMPF, EXCHANGE]

/-- Witness for C8: DUPN with operand byte 0 against entry bounds (5, 5)
passes both checks and advances pos by two. -/
theorem c8_witness :
    VA.checkOp [0xE6, 0x00] 0 [] jtEOF ⟨[], 0⟩ 0 DUPN ⟨5, 5⟩ =
      Except.ok (⟨5, 5⟩, ⟨[], 0⟩, 2) := by
  have h := (c8_amended_dupn_swapn [0xE6, 0x00] 0 [] jtEOF ⟨[], 0⟩ 0 DUPN 0 ⟨5, 5⟩
    (Or.inl rfl) (by decide)).1
  rw [h]
  decide

/-- Claim C1 (amended): in the part_001 variant a back-edge is a
propagated successor edge whose target is strictly below the current
offset (a same-offset edge goes through the forward join instead, see the
counterexample); at such an edge the entry bounds at the target must
already exist — otherwise ErrInvalidBackwardJump — and, shifted by the
target opcode's `StackLimit - maxStack + minStack`, must equal the
current entry bounds at the source in both components, otherwise
ErrInvalidBackwardJump; the stored bounds are returned unchanged (never
widened).  In the validate_linear.go variant a back-edge into an offset
with no stored bounds does not fail: the bounds are created there from
the current bounds shifted by the same delta and the edge is accepted. -/
theorem c1_amended_back_edge (code : List Nat) (jt : JumpTable) (st : VState)
    (pos : Int) (cur cs : bounds) (instr : Int) (nextOP : Nat)
    (hback : instr + 1 < pos)
    (hbyte : byteAt code (instr + 1) = some nextOP) :
    (blookup st.stackBounds (instr + 1) = none →
      VB.propOne code jt pos cur cs st instr = Except.error VErr.invalidBackwardJump) ∧
    (∀ nb : bounds, blookup st.stackBounds (instr + 1) = some nb →
      VB.propOne code jt pos cur cs st instr =
        if nb.max + (StackLimit - (jt nextOP).maxStack + (jt nextOP).minStack) ≠ cur.max then
          Except.error VErr.invalidBackwardJump
        else if nb.min + (StackLimit - (jt nextOP).maxStack + (jt nextOP).minStack) ≠ cur.min then
          Except.error VErr.invalidBackwardJump
        else Except.ok st) ∧
    (blookup st.stackBounds (instr + 1) = none →
      VA.propOne code jt pos cur st instr =
        Except.ok (setBounds st (instr + 1)
          (cur.min + (StackLimit - (jt nextOP).maxStack + (jt nextOP).minStack))
          (cur.max + (StackLimit - (jt nextOP).maxStack + (jt nextOP).minStack)))) := by
  have hb := byteAt_bounds hbyte
  have hnotge : ¬ instr + 1 ≥ (code.length : Int) := not_le.mpr hb.2
  have hnotgt : ¬ instr + 1 > (code.length : Int) := by omega
  have hnotfwd : ¬ instr + 1 ≥ pos := not_le.mpr hback
  refine ⟨?_, ?_, ?_⟩
  · intro hnone
    simp only [VB.propOne]
    rw [if_neg hnotge]
    simp only [hbyte]
    rw [if_neg hnotfwd]
    simp only [hnone]
  · intro nb hsome
    simp only [VB.propOne]
    rw [if_neg hnotge]
    simp only [hbyte]
    rw [if_neg hnotfwd]
    simp only [hsome]
  · intro hnone
    simp only [VA.propOne]
    rw [if_neg hnotgt]
    simp only [hbyte, hnone]
    rw [if_pos hback]
    simp

/-- Witness for C1: a back-edge from offset 2 into offset 1 (a STOP) whose
stored bounds (1, 1) match the current bounds (1, 1) after the STOP delta
of 0 — the part_001 propagation accepts and leaves the state unchanged. -/
theorem c1_witness :
    VB.propOne [0x00, 0x00, 0x00] jtEOF 2 ⟨1, 1⟩ ⟨0, 0⟩ ⟨[(1, ⟨1, 1⟩)], 1⟩ 0 =
      Except.ok ⟨[(1, ⟨1, 1⟩)], 1⟩ := by
  have h := (c1_amended_back_edge [0x00, 0x00, 0x00] jtEOF ⟨[(1, ⟨1, 1⟩)], 1⟩ 2 ⟨1, 1⟩ ⟨0, 0⟩
    0 0 (by decide) (by decide)).2.1 ⟨1, 1⟩ (by decide)
  rw [h]
  decide
